import Mathlib

/-!
Verification development for the LED Studio image/animation conversion tool.

The JavaScript core is shallowly embedded: the pixel-encoding and brightness
functions of `ImageProcessor`, the rectangle computation of
`processImageWithResize`, the `FrameManager` playback state machine (with an
explicit model of the host's interval-timer table), the frame-ingestion loop of
`SequenceHandler.loadFrames`, the GUID generator of `AnimationExporter`, and
the `sanitizeName` identifier cleaner.  Machine integers are modelled as
`Nat`/`Int` with explicit reductions mod `2 ^ 32` where JavaScript's 32-bit
bitwise coercion matters, and the JavaScript number `NaN` (which arises from
`% 0` in frame navigation) is modelled by an explicit `JNum.nan` value.
-/

namespace LEDStudio

/-- 32-bit truncation: JavaScript bitwise operators coerce their operands with
`ToInt32`; for the non-negative integers arising here that is reduction modulo
`2 ^ 32`.  We work throughout with the unsigned 32-bit pattern of the result
(the JavaScript value is its two's-complement reinterpretation). -/
def toUint32 (x : Nat) : Nat := x % 2 ^ 32

/-- `rgbToDword(r, g, b)` returns `(b << 16) | (g << 8) | r`
(src/js/imageProcessor.js, line 58), on the 32-bit pattern.  There is no
masking of the individual channels: each shifted channel is truncated only at
32 bits before the bitwise or. -/
def rgbToDword (r g b : Nat) : Nat :=
  toUint32 (toUint32 b * 2 ^ 16) ||| toUint32 (toUint32 g * 2 ^ 8) ||| toUint32 r

/-- A pixel record as built by `convertToPixelArray`
(src/js/imageProcessor.js, lines 26-52): the four 8-bit channels read from the
canvas plus the derived packed word. -/
structure Pixel where
  r : Nat
  g : Nat
  b : Nat
  a : Nat
  dword : Nat
deriving DecidableEq, Repr

/-- The pixel record `convertToPixelArray` pushes for channel values
`r`, `g`, `b`, `a`: the packed word is `rgbToDword(r, g, b)`; the alpha channel
is stored but never enters the packed word. -/
def mkPixel (r g b a : Nat) : Pixel :=
  ⟨r, g, b, a, rgbToDword r g b⟩

/-- `Math.round(v * (brightness / 100))` for a non-negative integer channel `v`
and non-negative integer percentage `brightness`, computed in exact rational
arithmetic: `Math.round x = ⌊x + 1/2⌋` for non-negative `x`, and
`v * (brightness / 100) + 1/2 = (2 * v * brightness + 100) / 200`.
(JavaScript evaluates in binary floating point; at the concrete inputs used in
the theorems below the floating-point computation is exact.) -/
def scaleChannel (v brightness : Nat) : Nat :=
  (2 * v * brightness + 100) / 200

/-- `applyBrightness(pixelData, brightness)` (src/js/imageProcessor.js,
lines 64-78): each of the three color channels is scaled by
`brightness / 100` and rounded, with no clamping to 255, and the packed word is
recomputed from the scaled channels; alpha is carried through unchanged. -/
def applyBrightness (pixels : List Pixel) (brightness : Nat) : List Pixel :=
  pixels.map fun p =>
    { p with
      r := scaleChannel p.r brightness
      g := scaleChannel p.g brightness
      b := scaleChannel p.b brightness
      dword := rgbToDword (scaleChannel p.r brightness) (scaleChannel p.g brightness)
        (scaleChannel p.b brightness) }

/-- The character class `[A-Z0-9_]` of `sanitizeName`'s replacement regex
(src/js/imageProcessor.js, line 176). -/
def isSafeChar (c : Char) : Prop :=
  ('A' ≤ c ∧ c ≤ 'Z') ∨ ('0' ≤ c ∧ c ≤ '9') ∨ c = '_'

instance (c : Char) : Decidable (isSafeChar c) := by
  unfold isSafeChar; infer_instance

/-- One step of `.replace(/[^A-Z0-9_]/g, '_')`: a character outside the class
`[A-Z0-9_]` is replaced by an underscore. -/
def sanitizeChar (c : Char) : Char :=
  if isSafeChar c then c else '_'

/-- `sanitizeName(name)` = `name.toUpperCase().replace(/[^A-Z0-9_]/g, '_')`
(src/js/imageProcessor.js, lines 175-177), as a character-by-character map:
uppercase first, then replace anything outside `[A-Z0-9_]`. -/
def sanitizeName (s : String) : String :=
  String.mk ((s.data.map Char.toUpper).map sanitizeChar)

/-- A JavaScript number restricted to the values arising in `FrameManager`'s
frame-index arithmetic: an integer, or `NaN` (which `(i + 1) % 0` produces on
an empty frame sequence). -/
inductive JNum where
  | int : Int → JNum
  | nan : JNum
deriving DecidableEq, Repr

namespace JNum

/-- JavaScript `+` on the values above: `NaN` is absorbing. -/
def add : JNum → JNum → JNum
  | .int a, .int b => .int (a + b)
  | _, _ => .nan

/-- JavaScript binary `-`: `NaN` is absorbing. -/
def sub : JNum → JNum → JNum
  | .int a, .int b => .int (a - b)
  | _, _ => .nan

/-- JavaScript `%`: truncating remainder; a zero divisor or a `NaN` operand
gives `NaN`. -/
def mod : JNum → JNum → JNum
  | .int a, .int b => if b = 0 then .nan else .int (a.tmod b)
  | _, _ => .nan

/-- JavaScript `<`: false whenever an operand is `NaN`. -/
def ltb : JNum → JNum → Bool
  | .int a, .int b => decide (a < b)
  | _, _ => false

/-- JavaScript `<=`: false whenever an operand is `NaN`. -/
def leb : JNum → JNum → Bool
  | .int a, .int b => decide (a ≤ b)
  | _, _ => false

/-- JavaScript `>=`: false whenever an operand is `NaN`. -/
def geb : JNum → JNum → Bool
  | .int a, .int b => decide (b ≤ a)
  | _, _ => false

end JNum

/-- The three loop modes of `FrameManager` (src/unnamed/part_001, line 9). -/
inductive LoopMode where
  | loop : LoopMode
  | once : LoopMode
  | pingpong : LoopMode
deriving DecidableEq, Repr

/-- A notification emitted through `FrameManager.emit`: either a
`frameChange` carrying the new current index, or a `playStateChange`
carrying the new playing flag. -/
inductive Ev where
  | frameChange : JNum → Ev
  | playStateChange : Bool → Ev
deriving DecidableEq, Repr

/-- `FrameManager` state (src/unnamed/part_001).  Only the length of the
`frames` array is observable by the manager's own logic, so we store it
directly.  `animationTimer` is the stored `setInterval` handle (`none` =
`null`); `activeTimers` and `nextTimerId` model the host environment's table
of live interval timers (`setInterval` registers a fresh id,
`clearInterval` removes it), so that "at most one active timer" is a
statement about the model, not an assumption. -/
structure FrameManager where
  framesLen : Nat
  currentFrame : JNum
  fps : Int
  loopMode : LoopMode
  playing : Bool
  direction : Int
  animationTimer : Option Nat
  activeTimers : List Nat
  nextTimerId : Nat
deriving DecidableEq, Repr

/-- The `FrameManager` constructor state (src/unnamed/part_001, lines 5-14). -/
def initFrameManager : FrameManager :=
  { framesLen := 0, currentFrame := .int 0, fps := 30, loopMode := .loop,
    playing := false, direction := 1, animationTimer := none,
    activeTimers := [], nextTimerId := 0 }

/-- `stop()` (lines 63-73): no-op if not playing, else clear the playing flag,
emit `playStateChange false`, and clear the interval if one is stored. -/
def FrameManager.stop (fm : FrameManager) : FrameManager × List Ev :=
  if fm.playing = false then (fm, [])
  else
    let fm' := { fm with playing := false }
    match fm'.animationTimer with
    | some t =>
      ({ fm' with animationTimer := none, activeTimers := fm'.activeTimers.erase t },
       [Ev.playStateChange false])
    | none => (fm', [Ev.playStateChange false])

/-- `play()` (lines 47-58): no-op on an empty sequence or when already
playing; otherwise set the playing flag, emit `playStateChange true`, and
register a fresh periodic timer whose handle is stored in
`animationTimer`. -/
def FrameManager.play (fm : FrameManager) : FrameManager × List Ev :=
  if fm.framesLen = 0 then (fm, [])
  else if fm.playing then (fm, [])
  else
    ({ fm with
        playing := true
        animationTimer := some fm.nextTimerId
        activeTimers := fm.nextTimerId :: fm.activeTimers
        nextTimerId := fm.nextTimerId + 1 },
     [Ev.playStateChange true])

/-- `setFrames(frames)` (lines 19-23): replace the sequence, reset the index
to 0, and stop. -/
def FrameManager.setFrames (fm : FrameManager) (len : Nat) : FrameManager × List Ev :=
  FrameManager.stop { fm with framesLen := len, currentFrame := .int 0 }

/-- `setFPS(fps)` (lines 28-34): store the rate; if playing, restart
(stop then play). -/
def FrameManager.setFPS (fm : FrameManager) (fps : Int) : FrameManager × List Ev :=
  let fm' : FrameManager := { fm with fps := fps }
  if fm'.playing then
    ((FrameManager.play (FrameManager.stop fm').1).1,
     (FrameManager.stop fm').2 ++ (FrameManager.play (FrameManager.stop fm').1).2)
  else (fm', [])

/-- `setLoopMode(mode)` (lines 39-42): store the mode and reset the direction
to `+1`. -/
def FrameManager.setLoopMode (fm : FrameManager) (m : LoopMode) : FrameManager × List Ev :=
  ({ fm with loopMode := m, direction := 1 }, [])

/-- `advanceFrame()` (lines 85-113): one tick of the playback clock.  Under
`loop` the index advances mod the count; under `once` it advances until
`count - 1` and then calls `stop()`; under `pingpong` it moves by
`direction` and clamp-and-flips at the two ends.  A `frameChange`
notification with the new index is emitted after the switch. -/
def FrameManager.advanceFrame (fm : FrameManager) : FrameManager × List Ev :=
  match fm.loopMode with
  | .loop =>
    let fm' := { fm with
      currentFrame := (fm.currentFrame.add (.int 1)).mod (.int (fm.framesLen : Int)) }
    (fm', [Ev.frameChange fm'.currentFrame])
  | .once =>
    if fm.currentFrame.ltb (.int ((fm.framesLen : Int) - 1)) then
      let fm' := { fm with currentFrame := fm.currentFrame.add (.int 1) }
      (fm', [Ev.frameChange fm'.currentFrame])
    else
      let r := FrameManager.stop fm
      (r.1, r.2 ++ [Ev.frameChange r.1.currentFrame])
  | .pingpong =>
    let fm' := { fm with currentFrame := fm.currentFrame.add (.int fm.direction) }
    if fm'.currentFrame.geb (.int ((fm'.framesLen : Int) - 1)) then
      let fm'' := { fm' with currentFrame := .int ((fm'.framesLen : Int) - 1), direction := -1 }
      (fm'', [Ev.frameChange fm''.currentFrame])
    else if fm'.currentFrame.leb (.int 0) then
      let fm'' := { fm' with currentFrame := .int 0, direction := 1 }
      (fm'', [Ev.frameChange fm''.currentFrame])
    else
      (fm', [Ev.frameChange fm'.currentFrame])

/-- `goToFrame(index)` (lines 118-123): silently ignored when the index is out
of range (a comparison that is false for `NaN` on both sides of the guard),
otherwise set the index and emit `frameChange`. -/
def FrameManager.goToFrame (fm : FrameManager) (index : JNum) : FrameManager × List Ev :=
  if index.ltb (.int 0) || index.geb (.int (fm.framesLen : Int)) then (fm, [])
  else ({ fm with currentFrame := index }, [Ev.frameChange index])

/-- `nextFrame()` (lines 128-131): wrap-around manual step via `goToFrame`. -/
def FrameManager.nextFrame (fm : FrameManager) : FrameManager × List Ev :=
  fm.goToFrame ((fm.currentFrame.add (.int 1)).mod (.int (fm.framesLen : Int)))

/-- `previousFrame()` (lines 136-140): manual step back, wrapping `-1` to
`count - 1`, via `goToFrame`. -/
def FrameManager.previousFrame (fm : FrameManager) : FrameManager × List Ev :=
  let prevIndex := fm.currentFrame.sub (.int 1)
  let wrappedIndex :=
    if prevIndex.ltb (.int 0) then JNum.int ((fm.framesLen : Int) - 1) else prevIndex
  fm.goToFrame wrappedIndex

/-- One playback tick: the state reached when the interval fires and calls
`advanceFrame`. -/
def FrameManager.tick (fm : FrameManager) : FrameManager :=
  (fm.advanceFrame).1

/-- `n` successive playback ticks. -/
def FrameManager.ticks : Nat → FrameManager → FrameManager
  | 0, fm => fm
  | n + 1, fm => (FrameManager.ticks n fm).tick

/-- The single-active-timer invariant, as a decidable check: when playing, the
stored interval handle exists and is the only live timer in the host's table;
when stopped, no handle is stored and no timer is live. -/
def timerInvB (fm : FrameManager) : Bool :=
  match fm.playing, fm.animationTimer with
  | true, some t => fm.activeTimers == [t]
  | true, none => false
  | false, some _ => false
  | false, none => fm.activeTimers == []

/-- The pingpong playback of C3: 3 frames, index 0, direction `+1`, playing. -/
def bounceStart : FrameManager :=
  (FrameManager.play { initFrameManager with framesLen := 3, loopMode := .pingpong }).1

/-- The frame indices observed after each of 6 successive ticks of
`bounceStart`. -/
def bounceObserved : List JNum :=
  (List.range 6).map fun k => (FrameManager.ticks (k + 1) bounceStart).currentFrame

/-- The `once` playback of C4: `n` frames, index 0, started playing. -/
def onceStart (n : Nat) : FrameManager :=
  (FrameManager.play { initFrameManager with framesLen := n, loopMode := .once }).1

/-- The five placement modes of `processImageWithResize`
(src/js/imageProcessor.js, line 102). -/
inductive ResizeMode where
  | cropTop : ResizeMode
  | cropBottom : ResizeMode
  | cropCenter : ResizeMode
  | stretch : ResizeMode
  | fit : ResizeMode
deriving DecidableEq, Repr

/-- A rectangle `(x, y, w, h)` as passed to `drawImage`. -/
structure Rect where
  x : Int
  y : Int
  w : Int
  h : Int
deriving DecidableEq, Repr

/-- The source- and destination-rectangle computation of
`processImageWithResize(image, targetWidth, targetHeight, mode)`
(src/js/imageProcessor.js, lines 105-170): the `switch` on `mode` that sets
`(sx, sy, sWidth, sHeight)` and `(dx, dy, dWidth, dHeight)` from the defaults
`(0, 0, image.width, image.height)` and `(0, 0, targetWidth, targetHeight)`.
The JavaScript function has NO offset parameters — the
`cropOffsetX`/`cropOffsetY` arguments that `SequenceHandler.reprocessFrames`
(src/unnamed/part_000, lines 839-848) passes in positions 5 and 6 are silently
dropped by JavaScript.  `fit` mode's real-valued scale is modelled in exact
rational arithmetic. -/
def processImageWithResizeRects (mode : ResizeMode)
    (imageWidth imageHeight targetWidth targetHeight : Int) : Rect × Rect :=
  match mode with
  | .cropTop =>
    (⟨0, 0, min targetWidth imageWidth, min targetHeight imageHeight⟩,
     ⟨0, 0, targetWidth, targetHeight⟩)
  | .cropBottom =>
    (⟨0, max 0 (imageHeight - min targetHeight imageHeight),
      min targetWidth imageWidth, min targetHeight imageHeight⟩,
     ⟨0, 0, targetWidth, targetHeight⟩)
  | .cropCenter =>
    (⟨(imageWidth - min targetWidth imageWidth) / 2,
      (imageHeight - min targetHeight imageHeight) / 2,
      min targetWidth imageWidth, min targetHeight imageHeight⟩,
     ⟨0, 0, targetWidth, targetHeight⟩)
  | .stretch =>
    (⟨0, 0, imageWidth, imageHeight⟩, ⟨0, 0, targetWidth, targetHeight⟩)
  | .fit =>
    let scale : ℚ :=
      min ((targetWidth : ℚ) / (imageWidth : ℚ)) ((targetHeight : ℚ) / (imageHeight : ℚ))
    let dW : Int := ⌊(imageWidth : ℚ) * scale⌋
    let dH : Int := ⌊(imageHeight : ℚ) * scale⌋
    (⟨0, 0, imageWidth, imageHeight⟩,
     ⟨(targetWidth - dW) / 2, (targetHeight - dH) / 2, dW, dH⟩)

/-- The source-rectangle origin for the crop modes as the specification (§4.2)
states it, and as the preview overlay `drawCropOverlay`
(src/unnamed/part_000, lines 618-653) computes it: apply the crop offset to
the mode's base origin, then clamp each coordinate into
`[0, source − window]`. -/
def resampleOriginSpec (mode : ResizeMode)
    (imageWidth imageHeight targetWidth targetHeight offsetX offsetY : Int) : Int × Int :=
  let sw := min targetWidth imageWidth
  let sh := min targetHeight imageHeight
  let raw : Int × Int :=
    match mode with
    | .cropTop => (offsetX, offsetY)
    | .cropBottom => (offsetX, max 0 (imageHeight - sh) + offsetY)
    | .cropCenter => ((imageWidth - sw) / 2 + offsetX, (imageHeight - sh) / 2 + offsetY)
    | .stretch => (0, 0)
    | .fit => (0, 0)
  (max 0 (min raw.1 (imageWidth - sw)), max 0 (min raw.2 (imageHeight - sh)))

/-- The dimensions of one decoded source image handed to
`SequenceHandler.loadFrames`; only the dimensions matter to the ingestion
check. -/
structure ImgDim where
  width : Nat
  height : Nat
deriving DecidableEq, Repr

/-- One entry of `SequenceHandler.frames` as pushed by `loadFrames`
(src/js/sequenceHandler.js, lines 228-234), restricted to the fields the
ingestion logic observes. -/
structure SeqFrame where
  index : Nat
  dim : ImgDim
deriving DecidableEq, Repr

/-- The `SequenceHandler` frame state (src/js/sequenceHandler.js):
the `frames` array and the established `frameWidth`/`frameHeight`. -/
structure SeqHandlerState where
  frames : List SeqFrame
  frameWidth : Nat
  frameHeight : Nat
deriving DecidableEq, Repr

/-- The `for` loop of `loadFrames` (src/js/sequenceHandler.js, lines 213-241):
frame 0 establishes the dimensions; a later frame whose dimensions differ
throws, aborting the loop — the frames already pushed stay in the
accumulator, exactly as the caught exception leaves `this.frames`.
Returns the frames array, the established width and height, and a success
flag (`false` = the thrown dimension-mismatch error). -/
def loadFramesLoop : List ImgDim → Nat → Nat → Nat → List SeqFrame →
    List SeqFrame × Nat × Nat × Bool
  | [], _, fw, fh, acc => (acc, fw, fh, true)
  | f :: rest, i, fw, fh, acc =>
    if i = 0 then
      loadFramesLoop rest (i + 1) f.width f.height (acc ++ [⟨i, f⟩])
    else if f.width ≠ fw ∨ f.height ≠ fh then
      (acc, fw, fh, false)
    else
      loadFramesLoop rest (i + 1) fw fh (acc ++ [⟨i, f⟩])

/-- `loadFrames(files)` (src/js/sequenceHandler.js, lines 198-271), restricted
to the handler's frame state: the previous `frames` array is cleared before
the loop, then the loop of `loadFramesLoop` runs; a dimension mismatch throws
and is caught (surfaced to the user as an error message), leaving whatever the
loop had accumulated as the handler's `frames`. -/
def SeqHandlerState.loadFrames (s : SeqHandlerState) (files : List ImgDim) :
    SeqHandlerState × Bool :=
  let r := loadFramesLoop files 0 s.frameWidth s.frameHeight []
  (⟨r.1, r.2.1, r.2.2.1⟩, r.2.2.2)

/-- One hex digit as produced by `Number.prototype.toString(16)` for a value
in `0..15`: `0`-`9` then lowercase `a`-`f`. -/
def hexDigitChar (n : Nat) : Char :=
  if n < 10 then Char.ofNat (48 + n) else Char.ofNat (87 + n)

/-- The template string of `generateGUID`
(src/js/animationExporter.js, line 186): note the surrounding braces. -/
def guidTemplate : List Char :=
  "\x7bxxxxxxxx-xxxx-4xxx-yxxx-xxxxxxxxxxxx\x7d".data

/-- The `replace(/[xy]/g, ...)` callback of `generateGUID`: each `x` is
replaced by a fresh uniform hex digit `r`, each `y` by `(r & 0x3 | 0x8)`
(one of `8, 9, a, b`); every other character is copied.  `draws i` is the
`i`-th value of `Math.random() * 16 | 0`, which always lies in `0..15`. -/
def fillGuidTemplate (draws : Nat → Fin 16) : List Char → Nat → List Char
  | [], _ => []
  | c :: rest, i =>
    if c = 'x' then hexDigitChar (draws i) :: fillGuidTemplate draws rest (i + 1)
    else if c = 'y' then
      hexDigitChar (((draws i) : Nat) &&& 3 ||| 8) :: fillGuidTemplate draws rest (i + 1)
    else c :: fillGuidTemplate draws rest i

/-- `generateGUID()` (src/js/animationExporter.js, lines 185-191), as a
function of the random draw sequence. -/
def generateGUID (draws : Nat → Fin 16) : String :=
  String.mk (fillGuidTemplate draws guidTemplate 0)

/-- Lowercase hexadecimal digits. -/
def isLowerHexDigit (c : Char) : Prop :=
  c ∈ ("0123456789abcdef".data)

instance (c : Char) : Decidable (isLowerHexDigit c) := by
  unfold isLowerHexDigit; infer_instance

/-- The positions of the generated string holding a plain uniform hex digit:
everything except the braces (0, 37), the dashes (9, 14, 19, 24), the fixed
version nibble (15) and the variant nibble (20). -/
def guidHexPositions : List Nat :=
  [1, 2, 3, 4, 5, 6, 7, 8, 10, 11, 12, 13, 16, 17, 18, 21, 22, 23,
   25, 26, 27, 28, 29, 30, 31, 32, 33, 34, 35, 36]

end LEDStudio

namespace LEDStudio

theorem pow_lit_8 : (2 : Nat) ^ 8 = 256 := by norm_num

theorem pow_lit_16 : (2 : Nat) ^ 16 = 65536 := by norm_num

theorem pow_lit_24 : (2 : Nat) ^ 24 = 16777216 := by norm_num

theorem pow_lit_32 : (2 : Nat) ^ 32 = 4294967296 := by norm_num

/-- For 8-bit channels the shifted fields are disjoint, so the bitwise ors of
`rgbToDword` amount to plain addition. -/
theorem rgbToDword_eq_of_lt {r g b : Nat} (hr : r < 256) (hg : g < 256) (hb : b < 256) :
    rgbToDword r g b = b * 2 ^ 16 + g * 2 ^ 8 + r := by
  have hb' : b % 2 ^ 32 = b := Nat.mod_eq_of_lt (by rw [pow_lit_32]; omega)
  have hg' : g % 2 ^ 32 = g := Nat.mod_eq_of_lt (by rw [pow_lit_32]; omega)
  have hr' : r % 2 ^ 32 = r := Nat.mod_eq_of_lt (by rw [pow_lit_32]; omega)
  have hbm : b * 2 ^ 16 % 2 ^ 32 = b * 2 ^ 16 :=
    Nat.mod_eq_of_lt (by rw [pow_lit_16, pow_lit_32]; omega)
  have hgm : g * 2 ^ 8 % 2 ^ 32 = g * 2 ^ 8 :=
    Nat.mod_eq_of_lt (by rw [pow_lit_8, pow_lit_32]; omega)
  have h1 : 2 ^ 16 * b + g * 2 ^ 8 = 2 ^ 16 * b ||| g * 2 ^ 8 :=
    Nat.mul_add_lt_is_or (by rw [pow_lit_8, pow_lit_16]; omega) b
  have h2 : 2 ^ 8 * (2 ^ 8 * b + g) + r = 2 ^ 8 * (2 ^ 8 * b + g) ||| r :=
    Nat.mul_add_lt_is_or (by rw [pow_lit_8]; omega) _
  unfold rgbToDword toUint32
  rw [hb', hg', hr', hbm, hgm]
  calc b * 2 ^ 16 ||| g * 2 ^ 8 ||| r
      = (2 ^ 16 * b ||| g * 2 ^ 8) ||| r := by rw [Nat.mul_comm b]
    _ = (2 ^ 16 * b + g * 2 ^ 8) ||| r := by rw [← h1]
    _ = 2 ^ 8 * (2 ^ 8 * b + g) ||| r := by
        rw [show 2 ^ 16 * b + g * 2 ^ 8 = 2 ^ 8 * (2 ^ 8 * b + g) by ring]
    _ = 2 ^ 8 * (2 ^ 8 * b + g) + r := h2.symm
    _ = b * 2 ^ 16 + g * 2 ^ 8 + r := by ring

/-- C1: for 8-bit channel values the packed word carries red in bits 0-7, green
in bits 8-15, blue in bits 16-23, with bits 24-31 zero, and the encoding is
independent of the alpha channel. -/
theorem claim_C1_encode_layout (r g b a₁ a₂ : Nat)
    (hr : r < 256) (hg : g < 256) (hb : b < 256) :
    (mkPixel r g b a₁).dword % 2 ^ 8 = r
  ∧ (mkPixel r g b a₁).dword / 2 ^ 8 % 2 ^ 8 = g
  ∧ (mkPixel r g b a₁).dword / 2 ^ 16 % 2 ^ 8 = b
  ∧ (mkPixel r g b a₁).dword / 2 ^ 24 = 0
  ∧ (mkPixel r g b a₁).dword = (mkPixel r g b a₂).dword := by
  have h : (mkPixel r g b a₁).dword = b * 2 ^ 16 + g * 2 ^ 8 + r :=
    rgbToDword_eq_of_lt hr hg hb
  refine ⟨?_, ?_, ?_, ?_, rfl⟩ <;>
    rw [h, pow_lit_8, pow_lit_16] <;>
    omega

/-- Witness for C1 at channels (17, 34, 51) and alphas 0 and 255. -/
theorem claim_C1_encode_layout_witness :
    (mkPixel 17 34 51 0).dword % 2 ^ 8 = 17
  ∧ (mkPixel 17 34 51 0).dword / 2 ^ 8 % 2 ^ 8 = 34
  ∧ (mkPixel 17 34 51 0).dword / 2 ^ 16 % 2 ^ 8 = 51
  ∧ (mkPixel 17 34 51 0).dword / 2 ^ 24 = 0
  ∧ (mkPixel 17 34 51 0).dword = (mkPixel 17 34 51 255).dword :=
  claim_C1_encode_layout 17 34 51 0 255 (by decide) (by decide) (by decide)

/-- C7, counterexample: brightness 200% on the pixel (0, 0, 200, 255) scales
blue to 400; the packed word is `400 << 16 = 0x01900000`, whose bits 24-31 are
`0x01`, not zero — the overflowed bits are not discarded by any packing mask. -/
theorem claim_C7_counterexample :
    applyBrightness [mkPixel 0 0 200 255] 200 = [⟨0, 0, 400, 255, 26214400⟩]
  ∧ (26214400 : Nat) / 2 ^ 24 = 1 := by
  constructor
  · rfl
  · rfl

/-- C7, amended: brightness scaling never clamps a channel and the packed word
is recomputed from the scaled channels exactly as at ingestion; the word is
reduced only modulo `2 ^ 32`, and an overflowing blue channel lands its high
bits in bits 24-31 of the word (rather than being discarded at the 8-bit
field boundary). -/
theorem claim_C7_amended :
    (∀ (pixels : List Pixel) (brightness : Nat) (q : Pixel),
      q ∈ applyBrightness pixels brightness →
      ∃ p ∈ pixels, q.r = scaleChannel p.r brightness
        ∧ q.g = scaleChannel p.g brightness
        ∧ q.b = scaleChannel p.b brightness
        ∧ q.a = p.a
        ∧ q.dword = rgbToDword q.r q.g q.b)
  ∧ (∀ r g b : Nat, rgbToDword r g b < 2 ^ 32)
  ∧ (∀ b : Nat, rgbToDword 0 0 b / 2 ^ 24 = b % 2 ^ 16 / 2 ^ 8) := by
  refine ⟨?_, ?_, ?_⟩
  · intro pixels brightness q hq
    unfold applyBrightness at hq
    rw [List.mem_map] at hq
    obtain ⟨p, hp, rfl⟩ := hq
    exact ⟨p, hp, rfl, rfl, rfl, rfl, rfl⟩
  · intro r g b
    unfold rgbToDword
    exact Nat.or_lt_two_pow
      (Nat.or_lt_two_pow (Nat.mod_lt _ (by norm_num)) (Nat.mod_lt _ (by norm_num)))
      (Nat.mod_lt _ (by norm_num))
  · intro b
    unfold rgbToDword toUint32
    have h0 : (0 : Nat) % 2 ^ 32 = 0 := by norm_num
    have hz : (0 : Nat) * 2 ^ 16 % 2 ^ 32 = 0 := by norm_num
    have hz8 : (0 : Nat) * 2 ^ 8 % 2 ^ 32 = 0 := by norm_num
    rw [h0, hz8, Nat.or_zero, Nat.or_zero]
    have hmul : b % 2 ^ 32 * 2 ^ 16 % 2 ^ 32 = b % 2 ^ 16 * 2 ^ 16 := by
      rw [pow_lit_16, pow_lit_32] at *
      omega
    rw [hmul, pow_lit_8, pow_lit_16, pow_lit_24]
    omega

/-- Witness for C7's amended theorem at the counterexample input. -/
theorem claim_C7_amended_witness :
    ∃ p ∈ [mkPixel 0 0 200 255],
      (Pixel.mk 0 0 400 255 26214400).r = scaleChannel p.r 200
    ∧ (Pixel.mk 0 0 400 255 26214400).g = scaleChannel p.g 200
    ∧ (Pixel.mk 0 0 400 255 26214400).b = scaleChannel p.b 200
    ∧ (Pixel.mk 0 0 400 255 26214400).a = p.a
    ∧ (Pixel.mk 0 0 400 255 26214400).dword =
        rgbToDword (Pixel.mk 0 0 400 255 26214400).r (Pixel.mk 0 0 400 255 26214400).g
          (Pixel.mk 0 0 400 255 26214400).b :=
  claim_C7_amended.1 [mkPixel 0 0 200 255] 200 ⟨0, 0, 400, 255, 26214400⟩ (by decide)

/-- Characters in the safe class are fixed points of `Char.toUpper`. -/
theorem toUpper_of_isSafeChar {c : Char} (h : isSafeChar c) : c.toUpper = c := by
  have hval : c.toNat ≤ 95 := by
    rcases h with ⟨_, h2⟩ | ⟨_, h2⟩ | h2
    · rw [Char.le_def] at h2
      have h3 : c.toNat ≤ 90 := UInt32.toNat_le_of_le (by norm_num) h2
      omega
    · rw [Char.le_def] at h2
      have h3 : c.toNat ≤ 57 := UInt32.toNat_le_of_le (by norm_num) h2
      omega
    · subst h2; decide
  unfold Char.toUpper
  rw [if_neg]
  omega

/-- `sanitizeChar` always lands in the safe class. -/
theorem isSafeChar_sanitizeChar (c : Char) : isSafeChar (sanitizeChar c) := by
  unfold sanitizeChar
  split
  · assumption
  · right; right; rfl

/-- `sanitizeChar` fixes characters already in the safe class. -/
theorem sanitizeChar_of_isSafeChar {c : Char} (h : isSafeChar c) : sanitizeChar c = c := by
  unfold sanitizeChar
  rw [if_pos h]

theorem sanitizeChar_toUpper_idem (x : Char) :
    sanitizeChar (Char.toUpper (sanitizeChar (Char.toUpper x)))
      = sanitizeChar (Char.toUpper x) := by
  have hy : isSafeChar (sanitizeChar (Char.toUpper x)) := isSafeChar_sanitizeChar _
  rw [toUpper_of_isSafeChar hy, sanitizeChar_of_isSafeChar hy]

/-- C9: `sanitizeName` emits only characters from `[A-Z0-9_]`, and it is
idempotent — its outputs are fixed points. -/
theorem claim_C9_sanitizeName_idempotent (s : String) :
    (∀ c ∈ (sanitizeName s).data, isSafeChar c)
  ∧ sanitizeName (sanitizeName s) = sanitizeName s := by
  constructor
  · intro c hc
    have hc' : c ∈ (s.data.map Char.toUpper).map sanitizeChar := hc
    rw [List.mem_map] at hc'
    obtain ⟨d, _, rfl⟩ := hc'
    exact isSafeChar_sanitizeChar d
  · unfold sanitizeName
    congr 1
    rw [show (String.mk ((s.data.map Char.toUpper).map sanitizeChar)).data
        = (s.data.map Char.toUpper).map sanitizeChar from rfl]
    simp only [List.map_map]
    apply List.map_congr_left
    intro x _
    simp only [Function.comp_apply]
    exact sanitizeChar_toUpper_idem x

/-- Witness for C9 on the concrete name `"my image-3.png"`. -/
theorem claim_C9_sanitizeName_idempotent_witness :
    (∀ c ∈ (sanitizeName (String.mk ['m', 'y', ' ', '3', '.', 'p'])).data, isSafeChar c)
  ∧ sanitizeName (sanitizeName (String.mk ['m', 'y', ' ', '3', '.', 'p']))
      = sanitizeName (String.mk ['m', 'y', ' ', '3', '.', 'p']) :=
  claim_C9_sanitizeName_idempotent (String.mk ['m', 'y', ' ', '3', '.', 'p'])

/-- C3, counterexample: under the pingpong (bounce) discipline with 3 frames,
index 0 and direction `+1`, the indices observed over 6 ticks are NOT
`1, 2, 2, 1, 0, 0` as the claim states. -/
theorem claim_C3_counterexample :
    bounceObserved
      ≠ [JNum.int 1, JNum.int 2, JNum.int 2, JNum.int 1, JNum.int 0, JNum.int 0] := by
  decide

/-- C3, amended: the code clamp-and-flips in the same tick in which the index
moves past an end, so the observed sequence over 6 ticks is
`1, 2, 1, 0, 1, 2` — the ends are not held for an extra tick. -/
theorem claim_C3_bounce_sequence :
    bounceObserved
      = [JNum.int 1, JNum.int 2, JNum.int 1, JNum.int 0, JNum.int 1, JNum.int 2] := by
  decide

/-- C10: on an empty frame sequence, `previousFrame` is a complete no-op (the
wrapped index `-1` is rejected by `goToFrame`'s range guard), while
`nextFrame` computes `(index + 1) % 0 = NaN`, which passes the guard (both
comparisons are false for `NaN`), so the current frame becomes `NaN` and a
`frameChange` notification carrying `NaN` is emitted. -/
theorem claim_C10_empty_nav (fm : FrameManager) (cur : Int)
    (hlen : fm.framesLen = 0) (hcur : fm.currentFrame = .int cur) :
    fm.previousFrame = (fm, [])
  ∧ (fm.nextFrame).1.currentFrame = JNum.nan
  ∧ (fm.nextFrame).2 = [Ev.frameChange JNum.nan] := by
  refine ⟨?_, ?_, ?_⟩
  · unfold FrameManager.previousFrame FrameManager.goToFrame
    rw [hcur, hlen]
    by_cases h : cur - 1 < 0
    · simp [JNum.sub, JNum.ltb, h]
    · simp [JNum.sub, JNum.ltb, JNum.geb, h]
      omega
  · unfold FrameManager.nextFrame FrameManager.goToFrame
    rw [hcur, hlen]
    simp [JNum.add, JNum.mod, JNum.ltb, JNum.geb]
  · unfold FrameManager.nextFrame FrameManager.goToFrame
    rw [hcur, hlen]
    simp [JNum.add, JNum.mod, JNum.ltb, JNum.geb]

/-- Witness for C10 at the constructor state (empty sequence, index 0). -/
theorem claim_C10_empty_nav_witness :
    initFrameManager.previousFrame = (initFrameManager, [])
  ∧ (initFrameManager.nextFrame).1.currentFrame = JNum.nan
  ∧ (initFrameManager.nextFrame).2 = [Ev.frameChange JNum.nan] :=
  claim_C10_empty_nav initFrameManager 0 rfl rfl

/-- `stop` preserves the single-timer invariant. -/
theorem timerInvB_stop {fm : FrameManager} (h : timerInvB fm = true) :
    timerInvB fm.stop.1 = true := by
  unfold FrameManager.stop
  unfold timerInvB at h ⊢
  cases hp : fm.playing <;> cases ht : fm.animationTimer <;>
    rw [hp, ht] at h <;> simp_all [List.erase_cons_head]

/-- `play` preserves the single-timer invariant. -/
theorem timerInvB_play {fm : FrameManager} (h : timerInvB fm = true) :
    timerInvB fm.play.1 = true := by
  unfold FrameManager.play
  unfold timerInvB at h ⊢
  cases hp : fm.playing <;> cases ht : fm.animationTimer <;>
    rw [hp, ht] at h <;> by_cases hl : fm.framesLen = 0 <;> simp_all

/-- `goToFrame` preserves the single-timer invariant: it never touches the
playing flag or the timer. -/
theorem timerInvB_goToFrame {fm : FrameManager} (h : timerInvB fm = true) (i : JNum) :
    timerInvB (fm.goToFrame i).1 = true := by
  unfold FrameManager.goToFrame
  split
  · exact h
  · exact h

/-- `advanceFrame` preserves the single-timer invariant. -/
theorem timerInvB_advanceFrame {fm : FrameManager} (h : timerInvB fm = true) :
    timerInvB fm.advanceFrame.1 = true := by
  unfold FrameManager.advanceFrame
  split
  · exact h
  · split
    · exact h
    · exact timerInvB_stop h
  · dsimp only
    split
    · exact h
    · split
      · exact h
      · exact h

/-- The invariant bounds the number of live timers by one. -/
theorem activeTimers_length_le_one {fm : FrameManager} (h : timerInvB fm = true) :
    fm.activeTimers.length ≤ 1 := by
  unfold timerInvB at h
  cases hp : fm.playing <;> cases ht : fm.animationTimer <;> rw [hp, ht] at h <;> simp_all

/-- C5: the host-timer model starts with no timer; `play()` is a strict no-op
while already playing or on an empty sequence (no state change, no
notification, no timer registered); and every public operation preserves the
invariant that the stored interval handle is the unique live timer while
playing and that no timer is live while stopped — hence at most one periodic
timer is ever active per controller. -/
theorem claim_C5_single_timer :
    timerInvB initFrameManager = true
  ∧ (∀ fm : FrameManager, fm.playing = true → fm.play = (fm, []))
  ∧ (∀ fm : FrameManager, fm.framesLen = 0 → fm.play = (fm, []))
  ∧ (∀ fm : FrameManager, timerInvB fm = true →
        fm.activeTimers.length ≤ 1
      ∧ timerInvB fm.play.1 = true
      ∧ timerInvB fm.stop.1 = true
      ∧ (∀ len, timerInvB (fm.setFrames len).1 = true)
      ∧ (∀ fps, timerInvB (fm.setFPS fps).1 = true)
      ∧ (∀ m, timerInvB (fm.setLoopMode m).1 = true)
      ∧ (∀ i, timerInvB (fm.goToFrame i).1 = true)
      ∧ timerInvB fm.nextFrame.1 = true
      ∧ timerInvB fm.previousFrame.1 = true
      ∧ timerInvB fm.advanceFrame.1 = true) := by
  refine ⟨rfl, ?_, ?_, ?_⟩
  · intro fm hp
    unfold FrameManager.play
    rw [hp]
    by_cases hl : fm.framesLen = 0 <;> simp [hl]
  · intro fm hl
    unfold FrameManager.play
    rw [hl]
    simp
  · intro fm h
    have hupd : ∀ len : Nat, timerInvB { fm with framesLen := len, currentFrame := .int 0 } = true := fun _ => h
    refine ⟨activeTimers_length_le_one h, timerInvB_play h, timerInvB_stop h,
      fun len => timerInvB_stop (hupd len), ?_, fun _ => h,
      fun i => timerInvB_goToFrame h i, timerInvB_goToFrame h _, ?_,
      timerInvB_advanceFrame h⟩
    · intro fps
      unfold FrameManager.setFPS
      have hfps : timerInvB { fm with fps := fps } = true := h
      dsimp only
      split
      · exact timerInvB_play (timerInvB_stop hfps)
      · exact hfps
    · unfold FrameManager.previousFrame
      exact timerInvB_goToFrame h _

/-- Witness for C5 at a concrete playing controller with 3 frames. -/
theorem claim_C5_single_timer_witness :
    ((initFrameManager.setFrames 3).1.play.1.play
        = ((initFrameManager.setFrames 3).1.play.1, []))
  ∧ timerInvB (initFrameManager.setFrames 3).1.play.1.stop.1 = true
  ∧ (initFrameManager.setFrames 3).1.play.1.activeTimers.length ≤ 1 :=
  ⟨claim_C5_single_timer.2.1 _ (by decide),
   (claim_C5_single_timer.2.2.2 _ (by decide)).2.2.1,
   (claim_C5_single_timer.2.2.2 _ (by decide)).1⟩

/-- The state `play()` produces from a `once`-mode controller with `n ≥ 1`
frames at index 0. -/
theorem onceStart_eq {n : Nat} (hn : 1 ≤ n) :
    onceStart n =
      { framesLen := n, currentFrame := .int 0, fps := 30, loopMode := .once,
        playing := true, direction := 1, animationTimer := some 0,
        activeTimers := [0], nextTimerId := 1 } := by
  unfold onceStart FrameManager.play initFrameManager
  have h0 : ¬ (n = 0) := by omega
  simp [h0]

/-- Under `once`, the first `n - 1` ticks advance the index one step each and
leave the controller playing. -/
theorem ticks_once_running {n : Nat} (hn : 1 ≤ n) (k : Nat) (hk : k ≤ n - 1) :
    FrameManager.ticks k (onceStart n) =
      { framesLen := n, currentFrame := .int (k : Int), fps := 30, loopMode := .once,
        playing := true, direction := 1, animationTimer := some 0,
        activeTimers := [0], nextTimerId := 1 } := by
  induction k with
  | zero =>
    rw [show FrameManager.ticks 0 (onceStart n) = onceStart n from rfl, onceStart_eq hn]
    simp
  | succ k ih =>
    have ihh := ih (by omega)
    show (FrameManager.ticks k (onceStart n)).tick = _
    rw [ihh]
    unfold FrameManager.tick FrameManager.advanceFrame
    have hcond : (JNum.int (k : Int)).ltb (.int ((n : Int) - 1)) = true := by
      simp only [JNum.ltb, decide_eq_true_eq]
      omega
    simp only [hcond]
    simp [JNum.add]

/-- The `n`-th tick of a `once` playback finds the index at `n - 1`, calls
`stop()`, and freezes. -/
theorem ticks_once_final {n : Nat} (hn : 1 ≤ n) :
    FrameManager.ticks n (onceStart n) =
      { framesLen := n, currentFrame := .int ((n : Int) - 1), fps := 30, loopMode := .once,
        playing := false, direction := 1, animationTimer := none,
        activeTimers := [], nextTimerId := 1 } := by
  obtain ⟨m, rfl⟩ : ∃ m, n = m + 1 := ⟨n - 1, by omega⟩
  show (FrameManager.ticks m (onceStart (m + 1))).tick = _
  rw [ticks_once_running hn m (by omega)]
  unfold FrameManager.tick FrameManager.advanceFrame FrameManager.stop
  have hcond : (JNum.int (m : Int)).ltb (.int (((m + 1 : Nat) : Int) - 1)) = false := by
    simp only [JNum.ltb, decide_eq_false_iff_not]
    push_cast
    omega
  simp only [hcond]
  simp [List.erase_cons_head]

/-- C4, counterexample: with `N = 2` frames under `once`, after `N - 1 = 1`
tick the controller is still playing (the claim says stopped); it stops only
on the second tick, and from that stopped-at-end state `play()` is NOT a
no-op — it resumes playback. -/
theorem claim_C4_counterexample :
    (FrameManager.ticks 1 (onceStart 2)).playing = true
  ∧ (FrameManager.ticks 2 (onceStart 2)).playing = false
  ∧ (FrameManager.ticks 2 (onceStart 2)).currentFrame = JNum.int 1
  ∧ ((FrameManager.ticks 2 (onceStart 2)).play).1.playing = true := by
  decide

/-- C4, amended: under `once` with `N ≥ 1` frames started playing at index 0,
it takes exactly `N` ticks (not `N - 1`) to reach the stopped state, with the
index frozen at `N - 1`; and from that stopped-at-end state a further
`play()` is not a no-op: it transitions back to playing. -/
theorem claim_C4_once_semantics (n : Nat) (hn : 1 ≤ n) :
    (FrameManager.ticks n (onceStart n)).playing = false
  ∧ (FrameManager.ticks n (onceStart n)).currentFrame = .int ((n : Int) - 1)
  ∧ ((FrameManager.ticks n (onceStart n)).play).1.playing = true := by
  rw [ticks_once_final hn]
  refine ⟨rfl, rfl, ?_⟩
  unfold FrameManager.play
  have h0 : ¬ (n = 0) := by omega
  simp [h0]

/-- Witness for C4's amended theorem at `N = 3`. -/
theorem claim_C4_once_semantics_witness :
    (FrameManager.ticks 3 (onceStart 3)).playing = false
  ∧ (FrameManager.ticks 3 (onceStart 3)).currentFrame = .int ((3 : Int) - 1)
  ∧ ((FrameManager.ticks 3 (onceStart 3)).play).1.playing = true :=
  claim_C4_once_semantics 3 (by decide)

/-- C2: `processImageWithResize` accepts no offset parameters, so the offsets
its caller passes never reach the source rectangle.  At a 4×4 source cropped
to 2×2 with `crop-top` and offset `(1, 0)`, the code uses origin `(0, 0)`
(and, having no offset, performs no clamping), while the specified
offset-then-clamp computation — which the preview overlay implements — gives
origin `(1, 0)`.  In general the code's crop-top origin is identically
`(0, 0)` whatever the geometry. -/
theorem claim_C2_offsets_dropped :
    (processImageWithResizeRects .cropTop 4 4 2 2).1 = ⟨0, 0, 2, 2⟩
  ∧ resampleOriginSpec .cropTop 4 4 2 2 1 0 = (1, 0)
  ∧ ((processImageWithResizeRects .cropTop 4 4 2 2).1.x,
     (processImageWithResizeRects .cropTop 4 4 2 2).1.y)
      ≠ resampleOriginSpec .cropTop 4 4 2 2 1 0
  ∧ (∀ iw ih tw th : Int,
      (processImageWithResizeRects .cropTop iw ih tw th).1.x = 0
      ∧ (processImageWithResizeRects .cropTop iw ih tw th).1.y = 0) := by
  refine ⟨by decide, by decide, by decide, ?_⟩
  intro iw ih tw th
  exact ⟨rfl, rfl⟩

/-- C6, counterexample: ingesting a 2-frame batch whose second frame is 3×2
while the first is 2×2 fails, but the handler's frame state afterwards still
holds the first frame of the aborted batch — a partial sequence IS kept. -/
theorem claim_C6_counterexample :
    (SeqHandlerState.loadFrames ⟨[], 0, 0⟩ [⟨2, 2⟩, ⟨3, 2⟩]).2 = false
  ∧ (SeqHandlerState.loadFrames ⟨[], 0, 0⟩ [⟨2, 2⟩, ⟨3, 2⟩]).1.frames
      = [⟨0, ⟨2, 2⟩⟩]
  ∧ (SeqHandlerState.loadFrames ⟨[], 0, 0⟩ [⟨2, 2⟩, ⟨3, 2⟩]).1.frames ≠ [] := by
  decide

/-- The ingestion loop, started past frame 0 with established dimensions
`(fw, fh)`: a mismatch anywhere in the remaining files makes it fail, keeping
exactly the accumulated frames plus the longest matching prefix. -/
theorem loadFramesLoop_mismatch (fw fh : Nat) :
    ∀ (rest : List ImgDim) (i : Nat) (acc : List SeqFrame), 1 ≤ i →
    (∃ g ∈ rest, g.width ≠ fw ∨ g.height ≠ fh) →
    (loadFramesLoop rest i fw fh acc).2.2.2 = false
  ∧ (loadFramesLoop rest i fw fh acc).1.map SeqFrame.dim
      = acc.map SeqFrame.dim
        ++ rest.takeWhile (fun g => g.width == fw && g.height == fh) := by
  intro rest
  induction rest with
  | nil =>
    intro i acc _ hmis
    simp at hmis
  | cons g rest ih =>
    intro i acc hi hmis
    by_cases hg : g.width ≠ fw ∨ g.height ≠ fh
    · have hcond : (g.width == fw && g.height == fh) = false := by
        rcases hg with h | h <;> simp [h]
      unfold loadFramesLoop
      rw [if_neg (by omega), if_pos hg]
      refine ⟨rfl, ?_⟩
      rw [List.takeWhile_cons, hcond]
      simp
    · push_neg at hg
      obtain ⟨h1, h2⟩ := hg
      have hmis' : ∃ g' ∈ rest, g'.width ≠ fw ∨ g'.height ≠ fh := by
        rcases hmis with ⟨g', hg', hne⟩
        rcases List.mem_cons.mp hg' with rfl | hmem
        · rcases hne with h | h
          · exact absurd h1 h
          · exact absurd h2 h
        · exact ⟨g', hmem, hne⟩
      have ihh := ih (i + 1) (acc ++ [⟨i, g⟩]) (by omega) hmis'
      have hcond : (g.width == fw && g.height == fh) = true := by
        simp [h1, h2]
      unfold loadFramesLoop
      rw [if_neg (by omega), if_neg (by push_neg; exact ⟨h1, h2⟩)]
      refine ⟨ihh.1, ?_⟩
      rw [ihh.2, List.takeWhile_cons, hcond]
      simp

/-- C6, amended: a dimension mismatch in the batch makes ingestion fail as a
hard error that aborts the loop (no later frame is processed), but the
handler's frame state afterwards is not empty: it retains exactly the frames
that preceded the first mismatching one (the previous sequence is cleared,
the partial new one is kept). -/
theorem claim_C6_partial_prefix (s : SeqHandlerState) (f : ImgDim) (rest : List ImgDim)
    (hmis : ∃ g ∈ rest, g.width ≠ f.width ∨ g.height ≠ f.height) :
    (s.loadFrames (f :: rest)).2 = false
  ∧ (s.loadFrames (f :: rest)).1.frames.map SeqFrame.dim
      = f :: rest.takeWhile (fun g => g.width == f.width && g.height == f.height) := by
  have h := loadFramesLoop_mismatch f.width f.height rest 1 [⟨0, f⟩] (by omega) hmis
  unfold SeqHandlerState.loadFrames
  have hstep : loadFramesLoop (f :: rest) 0 s.frameWidth s.frameHeight []
      = loadFramesLoop rest 1 f.width f.height [⟨0, f⟩] := by
    simp [loadFramesLoop]
  rw [hstep]
  exact ⟨h.1, by rw [h.2]; rfl⟩

/-- Witness for C6's amended theorem on the counterexample batch. -/
theorem claim_C6_partial_prefix_witness :
    ((⟨[], 0, 0⟩ : SeqHandlerState).loadFrames (⟨2, 2⟩ :: [⟨3, 2⟩])).2 = false
  ∧ ((⟨[], 0, 0⟩ : SeqHandlerState).loadFrames (⟨2, 2⟩ :: [⟨3, 2⟩])).1.frames.map SeqFrame.dim
      = ⟨2, 2⟩ :: List.takeWhile
          (fun g => g.width == (2 : Nat) && g.height == (2 : Nat)) [⟨3, 2⟩] :=
  claim_C6_partial_prefix ⟨[], 0, 0⟩ ⟨2, 2⟩ [⟨3, 2⟩] (by decide)

/-- C8, counterexample: the generated identifier is not a 36-character string —
the template wraps the UUID body in braces, so its length is 38. -/
theorem claim_C8_counterexample :
    (generateGUID (fun _ => (0 : Fin 16))).length ≠ 36 := by
  decide

/-- Every plain draw produces a lowercase hex digit. -/
theorem hexDigitChar_isLowerHex : ∀ d : Fin 16, isLowerHexDigit (hexDigitChar d) := by
  decide

/-- The variant nibble `(r & 0x3) | 0x8` is one of `8, 9, a, b`. -/
theorem hexVariantChar_mem :
    ∀ d : Fin 16, hexDigitChar ((d : Nat) &&& 3 ||| 8) ∈ (['8', '9', 'a', 'b'] : List Char) := by
  decide

/-- C8, amended: for every draw sequence the generated identifier is a
38-character string — the 36-character version-4-UUID shape wrapped in braces:
braces at positions 0 and 37, dashes at 9, 14, 19, 24, the version nibble `4`
at position 15, the variant nibble at position 20 drawn from `8, 9, a, b`, and
every other position an independently drawn lowercase hex digit. -/
theorem claim_C8_guid_shape (draws : Nat → Fin 16) :
    (generateGUID draws).length = 38
  ∧ (generateGUID draws).data.get? 0 = some '\x7b'
  ∧ (generateGUID draws).data.get? 37 = some '\x7d'
  ∧ (generateGUID draws).data.get? 9 = some '-'
  ∧ (generateGUID draws).data.get? 14 = some '-'
  ∧ (generateGUID draws).data.get? 19 = some '-'
  ∧ (generateGUID draws).data.get? 24 = some '-'
  ∧ (generateGUID draws).data.get? 15 = some '4'
  ∧ (generateGUID draws).data.get? 20 = some (hexDigitChar (((draws 15) : Nat) &&& 3 ||| 8))
  ∧ hexDigitChar (((draws 15) : Nat) &&& 3 ||| 8) ∈ (['8', '9', 'a', 'b'] : List Char)
  ∧ (∀ i ∈ guidHexPositions, ∃ k : Nat,
      (generateGUID draws).data.get? i = some (hexDigitChar (draws k))
      ∧ isLowerHexDigit (hexDigitChar (draws k))) := by
  refine ⟨rfl, rfl, rfl, rfl, rfl, rfl, rfl, rfl, rfl, hexVariantChar_mem (draws 15), ?_⟩
  intro i hi
  fin_cases hi <;> exact ⟨_, rfl, hexDigitChar_isLowerHex _⟩

/-- Witness for C8's amended theorem at the constant draw 5. -/
theorem claim_C8_guid_shape_witness :
    (generateGUID (fun _ => (5 : Fin 16))).length = 38
  ∧ (generateGUID (fun _ => (5 : Fin 16))).data.get? 15 = some '4' :=
  ⟨(claim_C8_guid_shape (fun _ => 5)).1,
   (claim_C8_guid_shape (fun _ => 5)).2.2.2.2.2.2.2.1⟩

end LEDStudio
